import Mathlib

/-!
Shallow embedding of `src/experimental/plugin/trainer/default_trainer.py`
(`DefaultTrainer`): the checkpoint recovery/save pair and the epoch/step
training loop, together with theorems settling the spec claims about them.

Conventions of the embedding:
* Python dict-backed blobs (model/optimizer/scheduler `state_dict`s) are
  opaque and modelled as `Nat`.
* A Python value that may be `None` is an `Option`.
* The checkpoint directory tree is a `Store : String → Option CheckpointDict`.
* An uncaught Python exception escaping a method is reported in the `err`
  field of that method's output structure; `err = none` means normal return.
* `logger.warning`/`logger.info` calls that the claims mention are collected
  in a `logs` list (only the messages the claims talk about are modelled).
-/

namespace DefaultTrainer

/-- Opaque state blob (a `state_dict` in the source). -/
abbrev Blob := Nat

/-- Opaque batch produced by a dataloader. -/
abbrev Batch := Nat

/-- Python exception kinds that the modelled code can raise. -/
inductive PyErr where
  | attributeError
  | overflowError
  | runtimeError
  deriving DecidableEq, Repr

/-- The `checkpoint` policy mapping: `config.get("root_path")` /
`config.get("model_name", "")` in the source. A missing key is `none`. -/
structure CkptPolicy where
  root_path : Option String
  model_name : Option String
  deriving DecidableEq, Repr

/-- The dict serialized by `DefaultTrainer.save` and read back by
`DefaultTrainer.recovery`. Keys may be absent (a corrupt/foreign record):
`dict[k]` on a missing key raises `KeyError` in the source. -/
structure CheckpointDict where
  epoch : Option Nat
  model : Option Blob
  optimizer_state_dict : Option Blob
  lr_scheduler : Option Blob
  deriving DecidableEq, Repr

/-- The checkpoint directory tree: `Checkpoint.from_directory` at a path
yields a record or fails (`none`). -/
abbrev Store := String → Option CheckpointDict

/-- The mutable fields of the trainer that recovery/save touch.
`lrScheduler = none` models `self.lr_scheduler is None` (the attribute itself
always exists once `prepare` has run, which is when `recovery` is called). -/
structure TrainerState where
  rank : Nat
  size : Nat
  modelState : Blob
  optimizerState : Blob
  lrScheduler : Option Blob
  startingEpoch : Nat
  deriving DecidableEq, Repr

/-- Python `f-string` rendering of a possibly-`None` value: `None` prints as
the four-character text. -/
def pyStr : Option String → String
  | none => "None"
  | some s => s

/-- `DefaultTrainer._get_local_path`. -/
def getLocalPath (root_path : Option String) (model_name : String)
    (rank size : Nat) : String :=
  pyStr root_path ++ "/" ++ model_name ++ "_" ++ toString rank ++ "-of-"
    ++ toString size

/-- The guard `config is None or config is ...` in `recovery`/`save`: the
second disjunct compares identity with a freshly allocated empty dict literal
and is therefore always `False` in Python. -/
def pyIsEmptyDictLit (_config : Option CkptPolicy) : Bool := false

/-- The `try:` block of `DefaultTrainer.recovery` (lines 34-49): load the
record at `path`, rehydrate model state, optimizer state, scheduler state
(when the key is present), then assign `starting_epoch`. Returns the trainer
state as mutated so far, paired with `true` iff the whole block ran without
raising. Failure points, in source order: `Checkpoint.from_directory` on a
missing path; `KeyError` on a missing `model` / `optimizer_state_dict` /
`epoch` key; `AttributeError` when the record has an `lr_scheduler` key but
`self.lr_scheduler` is `None`. -/
def recoveryTry (st : TrainerState) (store : Store) (path : String) :
    TrainerState × Bool :=
  match store path with
  | none => (st, false)
  | some d =>
    match d.model with
    | none => (st, false)
    | some ms =>
      let st1 := { st with modelState := ms }
      match d.optimizer_state_dict with
      | none => (st1, false)
      | some os =>
        let st2 := { st1 with optimizerState := os }
        match d.lr_scheduler with
        | some ss =>
          match st2.lrScheduler with
          | none => (st2, false)
          | some _ =>
            let st3 := { st2 with lrScheduler := some ss }
            match d.epoch with
            | none => (st3, false)
            | some e => ({ st3 with startingEpoch := e + 1 }, true)
        | none =>
          match d.epoch with
          | none => (st2, false)
          | some e => ({ st2 with startingEpoch := e + 1 }, true)

/-- Output of `recovery`: warnings logged, an uncaught exception if one
escaped, and the trainer state afterwards. -/
structure RecoveryOut where
  logs : List String
  err : Option PyErr
  state : TrainerState
  deriving Repr

/-- `DefaultTrainer.recovery` (lines 26-51). The empty-policy guard only
logs; with `config = None` execution falls through to `config.get`, raising
`AttributeError`. With a mapping, a missing `root_path` also only logs, and
the path is built with the text `None` in front. Everything inside the `try`
is caught by `except Exception` and logged as `recovery error`. -/
def recovery (st : TrainerState) (store : Store) (config : Option CkptPolicy) :
    RecoveryOut :=
  let logs0 := if config.isNone || pyIsEmptyDictLit config then
    ["checkpoint is empty, skip"] else []
  match config with
  | none => { logs := logs0, err := some .attributeError, state := st }
  | some cfg =>
    let root_path := cfg.root_path
    let model_name := cfg.model_name.getD ""
    let logs1 := logs0 ++ (if root_path.isNone then
      ["checkpoint root_path is empty, skip"] else [])
    let path := getLocalPath root_path model_name st.rank st.size
    match recoveryTry st store path with
    | (st1, true) => { logs := logs1, err := none, state := st1 }
    | (st1, false) =>
      { logs := logs1 ++ ["recovery error"], err := none, state := st1 }

/-- Output of `save`: warnings logged, an uncaught exception if one escaped,
and the checkpoint directory tree afterwards. -/
structure SaveOut where
  logs : List String
  err : Option PyErr
  store : Store

/-- `DefaultTrainer.save` (lines 177-197). Same non-returning guards as
`recovery`; then the record is written unconditionally — there is no early
return, so a missing `root_path` still produces a write, at a path whose
first component is the text `None`. The `lr_scheduler` key is added only when
`self.lr_scheduler` is truthy. -/
def save (st : TrainerState) (store : Store) (config : Option CkptPolicy)
    (epoch : Nat) : SaveOut :=
  let logs0 := if config.isNone || pyIsEmptyDictLit config then
    ["checkpoint is empty, skip"] else []
  match config with
  | none => { logs := logs0, err := some .attributeError, store := store }
  | some cfg =>
    let root_path := cfg.root_path
    let model_name := cfg.model_name.getD ""
    let logs1 := logs0 ++ (if root_path.isNone then
      ["checkpoint root_path is empty, skip"] else [])
    let path := getLocalPath root_path model_name st.rank st.size
    let status : CheckpointDict :=
      { epoch := some epoch
        model := some st.modelState
        optimizer_state_dict := some st.optimizerState
        lr_scheduler := if st.lrScheduler.isSome then st.lrScheduler
          else none }
    { logs := logs1 ++ ["save checkpoint finish"]
      err := none
      store := fun q => if q = path then some status else store q }

/-! ### The training loop `DefaultTrainer.train` (lines 115-172), as a trace
of the collaborator calls it makes, in order. -/

/-- One observable action of `train`. Step events carry (epoch, step). -/
inductive Event where
  | trainEpochStart (idx : Nat)
  | forward (idx step : Nat)
  | backward (idx step : Nat)
  | optimizerStep (idx step : Nat)
  | schedulerStep (idx step : Nat)
  | zeroGrad (idx step : Nat)
  | logTrain (idx step : Nat)
  | evalEpochStart (idx : Nat)
  | evalForward (idx step : Nat)
  | logEval (idx : Nat)
  | saveCheckpoint (idx : Nat)
  | barrier
  | saveModel (path : String)
  deriving DecidableEq, Repr

/-- The body of one training step (inside `accelerator.accumulate`):
forward, backward, `optimizer.step()`, `lr_scheduler.step()` when a
scheduler is present, `optimizer.zero_grad()`, and the `log_step`-gated
log line (lines 124-134). -/
def trainStepBody (hasSched : Bool) (logStep : Nat) (idx step : Nat) :
    List Event :=
  [.forward idx step, .backward idx step, .optimizerStep idx step]
    ++ (if hasSched then [.schedulerStep idx step] else [])
    ++ [.zeroGrad idx step]
    ++ (if step % logStep = 0 then [.logTrain idx step] else [])

/-- `for step, batch in enumerate(self.train_dataloader): ...` with the
trailing `if step == 0: break` (lines 123-136), over the enumerated batches. -/
def trainLoop (hasSched : Bool) (logStep : Nat) (idx : Nat) :
    List (Nat × Batch) → List Event
  | [] => []
  | (step, _) :: rest =>
    trainStepBody hasSched logStep idx step
      ++ (if step = 0 then [] else trainLoop hasSched logStep idx rest)

/-- The eval batch loop with its own `if step == 0: break` (lines 143-149). -/
def evalLoop (idx : Nat) : List (Nat × Batch) → List Event
  | [] => []
  | (step, _) :: rest =>
    [.evalForward idx step] ++ (if step = 0 then [] else evalLoop idx rest)

/-- Truthiness of `self.eval_dataloader` (`if self.eval_dataloader:`): a
dataloader defines `len`, so `None` and an empty loader are falsy. -/
def pyTruthyDL : Option (List Batch) → Bool
  | none => false
  | some l => !l.isEmpty

/-- The recognized `self.config` keys that `train` reads, each `none` when
the key is absent. `output` distinguishes an absent key (default
`"./output"` applies) from a key explicitly set to `None` (the
`if output is not None` guard then skips the final save). -/
structure JobConfig where
  num_train_epochs : Option Nat
  log_step : Option Nat
  checkpoint : Option CkptPolicy
  output : Option (Option String)

/-- One iteration of the epoch loop (lines 119-162): training phase, eval
phase when the eval dataloader is truthy, checkpoint save when a checkpoint
policy is configured, then `accelerator.wait_for_everyone()`. -/
def epochBody (hasSched : Bool) (logStep : Nat) (ckpt : Bool)
    (trainDL : List Batch) (evalDL : Option (List Batch)) (idx : Nat) :
    List Event :=
  [.trainEpochStart idx] ++ trainLoop hasSched logStep idx trainDL.enum
    ++ (if pyTruthyDL evalDL then
          [.evalEpochStart idx] ++ evalLoop idx (evalDL.getD []).enum
            ++ [.logEval idx]
        else [])
    ++ (if ckpt then [.saveCheckpoint idx] else [])
    ++ [.barrier]

/-- After the epoch loop (lines 164-172): `output = config.get("output",
"./output")`; the final artifact save runs when `output is not None`, then
the final `wait_for_everyone()` barrier. -/
def finalTail (output : Option String) : List Event :=
  (match output with
    | none => []
    | some p => [.saveModel p])
    ++ [.barrier]

/-- `DefaultTrainer.train` as an event trace: the epoch loop
`range(self.starting_epoch, num_train_epochs, 1)`, then the final artifact
save when `config.get("output", "./output")` is not `None`, then the final
barrier (lines 115-172). -/
def trainTrace (cfg : JobConfig) (hasSched : Bool) (trainDL : List Batch)
    (evalDL : Option (List Batch)) (startingEpoch : Nat) : List Event :=
  let n := cfg.num_train_epochs.getD 1
  let logStep := cfg.log_step.getD 1
  (List.range' startingEpoch (n - startingEpoch)).flatMap
      (epochBody hasSched logStep cfg.checkpoint.isSome trainDL evalDL)
    ++ finalTail (cfg.output.getD (some "./output"))

/-! ### Eval metrics (lines 151-158): mean loss, perplexity, and the
`except OverflowError` saturation. Loss values are modelled as rationals;
`math.exp` is modelled by its overflow behavior (it raises `OverflowError`
when its argument exceeds `ln` of the largest double, about 709.78), with
the finite approximation left abstract. -/

/-- Non-`NaN` Python float results, as far as the claims need them. -/
inductive PyFloat where
  | finite (q : ℚ)
  | inf
  deriving DecidableEq, Repr

/-- Modelled from the runtime: the argument bound above which `math.exp`
raises `OverflowError` on doubles. -/
def expOverflowCutoff : ℚ := 709.78

/-- `math.exp`: raises `OverflowError` past the cutoff, otherwise returns
some finite approximation `approx x`. -/
def floatExp (approx : ℚ → ℚ) (x : ℚ) : Except PyErr ℚ :=
  if expOverflowCutoff < x then .error .overflowError else .ok (approx x)

/-- `torch.mean` over gathered per-batch losses. -/
def listMean (l : List ℚ) : ℚ := l.sum / l.length

/-- Lines 151-157: `torch.cat(losses)` (raises `RuntimeError` on an empty
list, outside the `try`), then `eval_loss = torch.mean(losses)` and
`perplexity = math.exp(eval_loss)` inside `try ... except OverflowError`,
which replaces both by `float("inf")`. Any other exception kind would
propagate. -/
def evalMetrics (mexp : ℚ → Except PyErr ℚ) (losses : List ℚ) :
    Except PyErr (PyFloat × PyFloat) :=
  if losses.isEmpty then .error .runtimeError
  else
    let m := listMean losses
    match mexp m with
    | .ok p => .ok (.finite m, .finite p)
    | .error .overflowError => .ok (.inf, .inf)
    | .error e => .error e

/-! ### Helper predicates on events -/

/-- Marks the start of a training-phase pass. -/
def isTrainEpochStart : Event → Bool
  | .trainEpochStart _ => true
  | _ => false

/-- Marks the start of an eval-phase pass. -/
def isEvalEpochStart : Event → Bool
  | .evalEpochStart _ => true
  | _ => false

/-- A forward pass on a training batch. -/
def isForwardEv : Event → Bool
  | .forward _ _ => true
  | _ => false

/-- A forward pass on an eval batch. -/
def isEvalForwardEv : Event → Bool
  | .evalForward _ _ => true
  | _ => false

/-! ### Normal forms of the loops: the hardcoded `if step == 0: break`
makes every non-empty dataloader contribute exactly its step-0 body. -/

lemma trainLoop_enum (hs : Bool) (ls idx : Nat) (l : List Batch) :
    trainLoop hs ls idx l.enum =
      if l.isEmpty then [] else trainStepBody hs ls idx 0 := by
  cases l with
  | nil => simp [trainLoop]
  | cons b rest => simp [List.enum_cons, trainLoop]

lemma evalLoop_enum (idx : Nat) (l : List Batch) :
    evalLoop idx l.enum =
      if l.isEmpty then [] else [.evalForward idx 0] := by
  cases l with
  | nil => simp [evalLoop]
  | cons b rest => simp [List.enum_cons, evalLoop]

lemma epochBody_eq (hs : Bool) (ls : Nat) (ck : Bool) (trainDL : List Batch)
    (evalDL : Option (List Batch)) (j : Nat) :
    epochBody hs ls ck trainDL evalDL j =
      [.trainEpochStart j]
        ++ (if trainDL.isEmpty then [] else trainStepBody hs ls j 0)
        ++ (if pyTruthyDL evalDL then
              [.evalEpochStart j, .evalForward j 0, .logEval j] else [])
        ++ (if ck then [.saveCheckpoint j] else [])
        ++ [.barrier] := by
  unfold epochBody
  rw [trainLoop_enum]
  cases evalDL with
  | none => simp [pyTruthyDL]
  | some l =>
    cases l with
    | nil => simp [pyTruthyDL]
    | cons b rest => simp [pyTruthyDL, evalLoop_enum]

/-! ### Counting events -/

lemma sum_map_indicator (l : List Nat) (i c : Nat) :
    (l.map fun j => if j = i then c else 0).sum = c * l.count i := by
  induction l with
  | nil => simp
  | cons a t ih =>
    by_cases h : a = i
    · subst h
      simp only [List.map_cons, List.sum_cons, if_pos rfl, List.count_cons, ih,
        beq_self_eq_true, if_true, Nat.mul_add, Nat.mul_one]
      exact Nat.add_comm _ _
    · simp [h, List.count_cons, ih]

lemma count_range' (s n i : Nat) :
    (List.range' s n).count i = if s ≤ i ∧ i < s + n then 1 else 0 := by
  by_cases h : s ≤ i ∧ i < s + n
  · rw [if_pos h]
    exact List.count_eq_one_of_mem (List.nodup_range' s n 1 Nat.one_pos)
      (List.mem_range'_1.mpr h)
  · rw [if_neg h]
    exact List.count_eq_zero_of_not_mem fun hm => h (List.mem_range'_1.mp hm)

lemma count_stepBody_trainEpochStart (hs : Bool) (ls j st i : Nat) :
    (trainStepBody hs ls j st).count (.trainEpochStart i) = 0 := by
  unfold trainStepBody
  split <;> split <;> simp [List.count_append, List.count_cons]

lemma count_stepBody_evalEpochStart (hs : Bool) (ls j st i : Nat) :
    (trainStepBody hs ls j st).count (.evalEpochStart i) = 0 := by
  unfold trainStepBody
  split <;> split <;> simp [List.count_append, List.count_cons]

lemma count_stepBody_sched (hs : Bool) (ls j st i t : Nat) :
    (trainStepBody hs ls j st).count (.schedulerStep i t) =
      if hs = true ∧ j = i ∧ st = t then 1 else 0 := by
  unfold trainStepBody
  by_cases hj : j = i ∧ st = t <;>
    rcases hs with _ | _ <;>
    simp_all [List.count_append, List.count_cons,
      apply_ite (List.count (Event.schedulerStep i t))]

lemma countP_stepBody_trainEpochStart (hs : Bool) (ls j st : Nat) :
    (trainStepBody hs ls j st).countP isTrainEpochStart = 0 := by
  unfold trainStepBody
  split <;> split <;> simp [List.countP_append, List.countP_cons,
    isTrainEpochStart]

lemma count_epochBody_trainEpochStart (hs : Bool) (ls : Nat) (ck : Bool)
    (trainDL : List Batch) (evalDL : Option (List Batch)) (j i : Nat) :
    (epochBody hs ls ck trainDL evalDL j).count (.trainEpochStart i) =
      if j = i then 1 else 0 := by
  rw [epochBody_eq]
  by_cases hj : j = i <;>
    simp [hj, List.count_append, List.count_cons, count_stepBody_trainEpochStart,
      apply_ite (List.count (Event.trainEpochStart i))]

lemma count_epochBody_evalEpochStart (hs : Bool) (ls : Nat) (ck : Bool)
    (trainDL : List Batch) (evalDL : Option (List Batch)) (j i : Nat) :
    (epochBody hs ls ck trainDL evalDL j).count (.evalEpochStart i) =
      if j = i then (if pyTruthyDL evalDL then 1 else 0) else 0 := by
  rw [epochBody_eq]
  by_cases hj : j = i <;>
    simp [hj, List.count_append, List.count_cons, count_stepBody_evalEpochStart,
      apply_ite (List.count (Event.evalEpochStart i))]

lemma count_epochBody_sched (hs : Bool) (ls : Nat) (ck : Bool)
    (trainDL : List Batch) (evalDL : Option (List Batch)) (j i t : Nat) :
    (epochBody hs ls ck trainDL evalDL j).count (.schedulerStep i t) =
      if j = i then
        (if hs = true ∧ trainDL.isEmpty = false ∧ t = 0 then 1 else 0)
      else 0 := by
  rw [epochBody_eq]
  by_cases hj : j = i <;>
    by_cases he : trainDL.isEmpty <;>
    simp_all [List.count_append, List.count_cons, count_stepBody_sched,
      apply_ite (List.count (Event.schedulerStep i t))] <;>
    by_cases h0 : t = 0 <;> by_cases hhs : hs = true <;> simp_all <;> omega

lemma countP_epochBody_trainEpochStart (hs : Bool) (ls : Nat) (ck : Bool)
    (trainDL : List Batch) (evalDL : Option (List Batch)) (j : Nat) :
    (epochBody hs ls ck trainDL evalDL j).countP isTrainEpochStart = 1 := by
  rw [epochBody_eq]
  simp [List.countP_append, List.countP_cons, countP_stepBody_trainEpochStart,
    isTrainEpochStart, apply_ite (List.countP isTrainEpochStart)]

lemma sum_map_one {α : Type} (l : List α) : (l.map fun _ => 1).sum = l.length := by
  induction l with
  | nil => simp
  | cons a t ih => simp [ih]; omega

lemma count_finalTail_trainEpochStart (o : Option String) (i : Nat) :
    (finalTail o).count (.trainEpochStart i) = 0 := by
  cases o <;> simp [finalTail, List.count_cons]

lemma count_finalTail_evalEpochStart (o : Option String) (i : Nat) :
    (finalTail o).count (.evalEpochStart i) = 0 := by
  cases o <;> simp [finalTail, List.count_cons]

lemma count_finalTail_sched (o : Option String) (i t : Nat) :
    (finalTail o).count (.schedulerStep i t) = 0 := by
  cases o <;> simp [finalTail, List.count_cons]

lemma countP_finalTail_trainEpochStart (o : Option String) :
    (finalTail o).countP isTrainEpochStart = 0 := by
  cases o <;> simp [finalTail, List.countP_cons, isTrainEpochStart]

/-- C3 -- For every valid configuration with `starting_epoch < total_epochs`,
the loop body runs exactly `total_epochs - starting_epoch` times: the trace
contains that many training-phase starts, the training-phase start for epoch
`i` appears exactly once for each `i` in `[starting_epoch, total_epochs)` and
never otherwise, and when the eval data source is configured (truthy) the
same holds for the eval-phase starts. -/
theorem train_runs_each_epoch_once (cfg : JobConfig) (hasSched : Bool)
    (trainDL : List Batch) (evalDL : Option (List Batch)) (s : Nat)
    (hn : s < cfg.num_train_epochs.getD 1) :
    (trainTrace cfg hasSched trainDL evalDL s).countP isTrainEpochStart
        = cfg.num_train_epochs.getD 1 - s ∧
      (∀ i, (trainTrace cfg hasSched trainDL evalDL s).count (.trainEpochStart i)
        = if s ≤ i ∧ i < cfg.num_train_epochs.getD 1 then 1 else 0) ∧
      (∀ i, (trainTrace cfg hasSched trainDL evalDL s).count (.evalEpochStart i)
        = if pyTruthyDL evalDL = true ∧ s ≤ i ∧ i < cfg.num_train_epochs.getD 1
          then 1 else 0) := by
  have hsn : s + (cfg.num_train_epochs.getD 1 - s) = cfg.num_train_epochs.getD 1 :=
    by omega
  refine ⟨?_, fun i => ?_, fun i => ?_⟩
  · simp only [trainTrace, List.countP_append, List.countP_flatMap,
      countP_finalTail_trainEpochStart, countP_epochBody_trainEpochStart,
      Nat.add_zero, Function.comp_def]
    rw [sum_map_one, List.length_range']
  · simp only [trainTrace, List.count_append, List.count_flatMap,
      count_finalTail_trainEpochStart, count_epochBody_trainEpochStart,
      Nat.add_zero, Function.comp_def]
    rw [sum_map_indicator, count_range', hsn, Nat.one_mul]
  · simp only [trainTrace, List.count_append, List.count_flatMap,
      count_finalTail_evalEpochStart, count_epochBody_evalEpochStart,
      Nat.add_zero, Function.comp_def]
    rw [sum_map_indicator, count_range', hsn]
    by_cases ht : pyTruthyDL evalDL <;>
      by_cases hi : s ≤ i ∧ i < cfg.num_train_epochs.getD 1 <;>
      simp [ht, hi]

/-- Witness for C3 at a concrete configuration: 3 total epochs, starting
epoch 1, one train batch, one eval batch. -/
theorem train_runs_each_epoch_once_witness :
    (1 < (3 : Nat)) ∧
      ((trainTrace ⟨some 3, none, none, none⟩ true [7] (some [8]) 1).countP
          isTrainEpochStart = 2 ∧
        (∀ i, (trainTrace ⟨some 3, none, none, none⟩ true [7] (some [8]) 1).count
          (.trainEpochStart i) = if 1 ≤ i ∧ i < 3 then 1 else 0) ∧
        (∀ i, (trainTrace ⟨some 3, none, none, none⟩ true [7] (some [8]) 1).count
          (.evalEpochStart i)
          = if pyTruthyDL (some [8]) = true ∧ 1 ≤ i ∧ i < 3 then 1 else 0)) :=
  ⟨by decide,
    train_runs_each_epoch_once ⟨some 3, none, none, none⟩ true [7] (some [8]) 1
      (by decide)⟩

/-- C10 -- If `starting_epoch >= num_train_epochs` when `train` is invoked,
the per-epoch body runs zero times, yet the trace is still exactly the final
tail: the final model save happens exactly once whenever the `output` key is
absent (so the default `"./output"` applies) or set to a path, and the final
barrier happens exactly once. -/
theorem no_epochs_still_final_save (cfg : JobConfig) (hasSched : Bool)
    (trainDL : List Batch) (evalDL : Option (List Batch)) (s : Nat)
    (h : cfg.num_train_epochs.getD 1 ≤ s) :
    trainTrace cfg hasSched trainDL evalDL s
        = finalTail (cfg.output.getD (some "./output")) ∧
      (trainTrace cfg hasSched trainDL evalDL s).countP isTrainEpochStart = 0 ∧
      (trainTrace cfg hasSched trainDL evalDL s).count .barrier = 1 ∧
      (∀ p, cfg.output.getD (some "./output") = some p →
        (trainTrace cfg hasSched trainDL evalDL s).count (.saveModel p) = 1) := by
  have h0 : cfg.num_train_epochs.getD 1 - s = 0 := by omega
  have he : trainTrace cfg hasSched trainDL evalDL s
      = finalTail (cfg.output.getD (some "./output")) := by
    simp [trainTrace, h0]
  refine ⟨he, ?_, ?_, fun p hp => ?_⟩
  · rw [he]
    exact countP_finalTail_trainEpochStart _
  · rw [he]
    cases hop : cfg.output.getD (some "./output") <;>
      simp [finalTail, hop, List.count_cons]
  · rw [he, hp]
    simp [finalTail, List.count_cons]

/-- Witness for C10: two configured epochs but starting epoch 5; the `output`
key is absent, so the default `"./output"` final save runs, plus the final
barrier -- and nothing else. -/
theorem no_epochs_still_final_save_witness :
    ((⟨some 2, none, none, none⟩ : JobConfig).num_train_epochs.getD 1 ≤ 5) ∧
      (trainTrace ⟨some 2, none, none, none⟩ false [1] none 5
          = finalTail (some "./output") ∧
        (trainTrace ⟨some 2, none, none, none⟩ false [1] none 5).countP
          isTrainEpochStart = 0 ∧
        (trainTrace ⟨some 2, none, none, none⟩ false [1] none 5).count
          .barrier = 1 ∧
        (∀ p, (some "./output" : Option String) = some p →
          (trainTrace ⟨some 2, none, none, none⟩ false [1] none 5).count
            (.saveModel p) = 1)) :=
  ⟨by decide, no_epochs_still_final_save ⟨some 2, none, none, none⟩ false [1]
    none 5 (by decide)⟩

lemma sched_not_mem_finalTail (o : Option String) (i t : Nat) :
    Event.schedulerStep i t ∉ finalTail o := by
  cases o <;> simp [finalTail]

lemma sched_mem_epochBody {hs : Bool} {ls : Nat} {ck : Bool}
    {trainDL : List Batch} {evalDL : Option (List Batch)} {j i t : Nat}
    (h : Event.schedulerStep i t ∈ epochBody hs ls ck trainDL evalDL j) :
    hs = true ∧ j = i ∧ t = 0 ∧ trainDL.isEmpty = false := by
  rw [epochBody_eq] at h
  by_cases hde : trainDL.isEmpty <;>
    by_cases hev : pyTruthyDL evalDL <;>
    by_cases hck : ck <;>
    rcases hs with _ | _ <;>
    simp_all [trainStepBody, List.mem_append,
      apply_ite (Event.schedulerStep i t ∈ ·)]

lemma stepBody_sched_contig (ls i : Nat) :
    [Event.optimizerStep i 0, .schedulerStep i 0, .zeroGrad i 0]
      <:+: trainStepBody true ls i 0 := by
  refine ⟨[Event.forward i 0, Event.backward i 0],
    if 0 % ls = 0 then [Event.logTrain i 0] else [], ?_⟩
  simp [trainStepBody]

lemma epochBody_chunk_of_mem {j : Nat} {l : List Nat} (hj : j ∈ l)
    (f : Nat → List Event) : f j <:+: l.flatMap f := by
  obtain ⟨u, v, rfl⟩ := List.append_of_mem hj
  refine ⟨u.flatMap f, v.flatMap f, ?_⟩
  simp

/-- C7 -- Per-step ordering: in any trace of `train`, each scheduler advance
event `(i, t)` occurs at most once; and when it occurs at all, a scheduler
was present and the three-event block optimizer-step, scheduler-advance,
gradient-clear for that step occurs contiguously in that order (so the
advance is immediately after the optimizer step and immediately before the
gradient clear, and in particular never precedes the optimizer step). -/
theorem scheduler_advance_order (cfg : JobConfig) (hasSched : Bool)
    (trainDL : List Batch) (evalDL : Option (List Batch)) (s i t : Nat) :
    (trainTrace cfg hasSched trainDL evalDL s).count (.schedulerStep i t) ≤ 1 ∧
      (Event.schedulerStep i t ∈ trainTrace cfg hasSched trainDL evalDL s →
        hasSched = true ∧
          [Event.optimizerStep i t, .schedulerStep i t, .zeroGrad i t]
            <:+: trainTrace cfg hasSched trainDL evalDL s) := by
  constructor
  · simp only [trainTrace, List.count_append, List.count_flatMap,
      count_finalTail_sched, Nat.add_zero, Function.comp_def,
      count_epochBody_sched]
    rw [sum_map_indicator, count_range']
    have h1 : (if hasSched = true ∧ trainDL.isEmpty = false ∧ t = 0
        then 1 else 0) ≤ 1 := by split <;> omega
    have h2 : (if s ≤ i ∧ i < s + (cfg.num_train_epochs.getD 1 - s)
        then 1 else 0) ≤ 1 := by split <;> omega
    exact Left.mul_le_one h1 h2
  · intro hmem
    rw [trainTrace, List.mem_append] at hmem
    rcases hmem with hmem | hmem
    · obtain ⟨j, hj, hb⟩ := List.mem_flatMap.mp hmem
      obtain ⟨hhs, rfl, rfl, hde⟩ := sched_mem_epochBody hb
      subst hhs
      refine ⟨rfl, ?_⟩
      have h1 : [Event.optimizerStep j 0, .schedulerStep j 0, .zeroGrad j 0]
          <:+: epochBody true (cfg.log_step.getD 1) cfg.checkpoint.isSome
            trainDL evalDL j := by
        refine (stepBody_sched_contig (cfg.log_step.getD 1) j).trans ?_
        rw [epochBody_eq, hde]
        exact ⟨[Event.trainEpochStart j],
          (if pyTruthyDL evalDL then
            [Event.evalEpochStart j, .evalForward j 0, .logEval j] else [])
            ++ (if cfg.checkpoint.isSome then [Event.saveCheckpoint j] else [])
            ++ [Event.barrier], by simp⟩
      refine ((h1.trans (epochBody_chunk_of_mem hj _)).trans ?_)
      exact ⟨[], finalTail (cfg.output.getD (some "./output")), by simp [trainTrace]⟩
    · exact absurd hmem (sched_not_mem_finalTail _ i t)

/-- Witness for C7: one epoch, a scheduler present, one train batch; the
scheduler advance for step (0,0) is in the trace, so the contiguous
optimizer-step / scheduler-advance / gradient-clear block is too. -/
theorem scheduler_advance_order_witness :
    (Event.schedulerStep 0 0 ∈ trainTrace ⟨some 1, none, none, none⟩ true [9] none 0) ∧
      (true = true ∧
        [Event.optimizerStep 0 0, .schedulerStep 0 0, .zeroGrad 0 0]
          <:+: trainTrace ⟨some 1, none, none, none⟩ true [9] none 0) :=
  ⟨by decide,
    (scheduler_advance_order ⟨some 1, none, none, none⟩ true [9] none 0 0 0).2
      (by decide)⟩

/-- C1 -- counter-evidence: with a 3-batch train loader, a 2-batch eval
loader, one configured epoch and no flag of any kind set, the loop performs
exactly one training forward pass and one eval forward pass: the
`if step == 0: break` at the end of both batch loops truncates every epoch
to a single batch unconditionally (there is no abbreviated-run flag in the
configuration surface that could disable it). -/
theorem train_truncated_to_single_batch :
    (trainTrace ⟨some 1, none, none, none⟩ false [1, 2, 3] (some [4, 5]) 0).countP
        isForwardEv = 1 ∧
      (trainTrace ⟨some 1, none, none, none⟩ false [1, 2, 3] (some [4, 5]) 0).countP
        isEvalForwardEv = 1 ∧
      ([1, 2, 3] : List Batch).length = 3 ∧ ([4, 5] : List Batch).length = 2 := by
  decide

/-! ### Recovery / save claims -/

lemma recoveryTry_failed_startingEpoch (st : TrainerState) (store : Store)
    (path : String) :
    (recoveryTry st store path).2 = false →
    (recoveryTry st store path).1.startingEpoch = st.startingEpoch := by
  unfold recoveryTry
  cases hsp : store path with
  | none => simp
  | some d =>
    cases hm : d.model with
    | none => simp_all
    | some ms =>
      cases ho : d.optimizer_state_dict with
      | none => simp_all
      | some os =>
        cases hl : d.lr_scheduler with
        | none =>
          cases hep : d.epoch with
          | none => simp_all
          | some e => simp_all
        | some ss =>
          cases hst : st.lrScheduler with
          | none => simp_all
          | some sb =>
            cases hep : d.epoch with
            | none => simp_all
            | some e => simp_all

/-- C5 -- With any policy mapping (root_path possibly missing) and any store
(path absent, record corrupt, record incompatible with the trainer), recovery
returns normally: no exception escapes; and whenever the try-block failed,
the job is a cold start (`starting_epoch` still 0) and the failure was logged
as `recovery error`. -/
theorem recovery_never_fatal (st : TrainerState) (store : Store)
    (cfg : CkptPolicy) (h0 : st.startingEpoch = 0) :
    (recovery st store (some cfg)).err = none ∧
      ((recoveryTry st store (getLocalPath cfg.root_path
          (cfg.model_name.getD "") st.rank st.size)).2 = false →
        (recovery st store (some cfg)).state.startingEpoch = 0 ∧
          "recovery error" ∈ (recovery st store (some cfg)).logs) := by
  rw [recovery]
  cases htry : recoveryTry st store
      (getLocalPath cfg.root_path (cfg.model_name.getD "") st.rank st.size) with
  | mk st1 b =>
    cases b with
    | true => exact ⟨rfl, fun hc => by simp at hc⟩
    | false =>
      refine ⟨rfl, fun _ => ⟨?_, by simp⟩⟩
      have := recoveryTry_failed_startingEpoch st store
        (getLocalPath cfg.root_path (cfg.model_name.getD "") st.rank st.size)
      rw [htry] at this
      simpa [h0] using this rfl

/-- Witness for C5: empty store (so `Checkpoint.from_directory` fails), a
policy with a root path; recovery returns with no error and epoch 0. -/
theorem recovery_never_fatal_witness :
    ((⟨0, 1, 11, 22, none, 0⟩ : TrainerState).startingEpoch = 0) ∧
      (recovery ⟨0, 1, 11, 22, none, 0⟩ (fun _ => none)
          (some ⟨some "root", some "m"⟩)).err = none ∧
      ((recoveryTry ⟨0, 1, 11, 22, none, 0⟩ (fun _ => none)
          (getLocalPath (some "root") "m" 0 1)).2 = false →
        (recovery ⟨0, 1, 11, 22, none, 0⟩ (fun _ => none)
            (some ⟨some "root", some "m"⟩)).state.startingEpoch = 0 ∧
          "recovery error" ∈ (recovery ⟨0, 1, 11, 22, none, 0⟩ (fun _ => none)
            (some ⟨some "root", some "m"⟩)).logs) :=
  ⟨rfl, recovery_never_fatal ⟨0, 1, 11, 22, none, 0⟩ (fun _ => none)
    ⟨some "root", some "m"⟩ rfl⟩

/-- A trainer state used to exhibit partial mutation during a failed
recovery. -/
def stPartial : TrainerState := ⟨0, 1, 11, 22, none, 0⟩

/-- A store whose record at path `"p"` has a loadable `model` entry but no
`optimizer_state_dict` entry: rehydration fails halfway through. -/
def storePartial : Store :=
  fun q => if q = "p" then some ⟨none, some 99, none, none⟩ else none

/-- C8 -- `starting_epoch` is assigned only after every load in the recovery
try-block has succeeded: whenever the block fails, `starting_epoch` keeps its
prior value; and a failed attempt can nevertheless have already overwritten
model state (at `stPartial`/`storePartial`, the model blob was replaced by 99
while `starting_epoch` stayed 0). -/
theorem starting_epoch_assigned_only_on_success :
    (∀ (st : TrainerState) (store : Store) (path : String),
        (recoveryTry st store path).2 = false →
        (recoveryTry st store path).1.startingEpoch = st.startingEpoch) ∧
      ((recoveryTry stPartial storePartial "p").2 = false ∧
        (recoveryTry stPartial storePartial "p").1.modelState = 99 ∧
        stPartial.modelState = 11 ∧
        (recoveryTry stPartial storePartial "p").1.startingEpoch = 0) := by
  refine ⟨recoveryTry_failed_startingEpoch, ?_, ?_, ?_, ?_⟩ <;> decide

/-- Witness for C8, applying its universally quantified part at the concrete
partially-mutating failure. -/
theorem starting_epoch_assigned_only_on_success_witness :
    (recoveryTry stPartial storePartial "p").1.startingEpoch
      = stPartial.startingEpoch :=
  starting_epoch_assigned_only_on_success.1 stPartial storePartial "p"
    (by decide)

/-- C9 -- Passing `None` as the checkpoint policy to `recovery` or `save`
raises `AttributeError` (from `config.get` on `None`) instead of skipping the
phase: the guard logs its warning but does not return, and its second
disjunct, the identity comparison of `config` with a fresh empty dict
literal, is never true. -/
theorem none_policy_raises (st : TrainerState) (store : Store) (e : Nat) :
    (recovery st store none).err = some PyErr.attributeError ∧
      "checkpoint is empty, skip" ∈ (recovery st store none).logs ∧
      (save st store none e).err = some PyErr.attributeError ∧
      "checkpoint is empty, skip" ∈ (save st store none e).logs ∧
      (∀ c : Option CkptPolicy, pyIsEmptyDictLit c = false) := by
  refine ⟨rfl, ?_, rfl, ?_, fun c => rfl⟩ <;> simp [recovery, save, pyIsEmptyDictLit]

/-- Trainer state for the missing-root-path save evidence. -/
def stOne : TrainerState := ⟨0, 1, 11, 22, none, 0⟩

/-- C2 -- counter-evidence: `save` with a policy that lacks `root_path` logs
the `skip` warning but does not skip: it still writes a full checkpoint
record, at the path `"None/m_0-of-1"` (the literal text `None` standing in
for the missing root), and returns without error. -/
theorem save_missing_root_path_still_writes :
    "checkpoint root_path is empty, skip"
        ∈ (save stOne (fun _ => none) (some ⟨none, some "m"⟩) 5).logs ∧
      getLocalPath none "m" 0 1 = "None/m_0-of-1" ∧
      (save stOne (fun _ => none) (some ⟨none, some "m"⟩) 5).store
        "None/m_0-of-1" = some ⟨some 5, some 11, some 22, none⟩ ∧
      (save stOne (fun _ => none) (some ⟨none, some "m"⟩) 5).err = none := by
  refine ⟨?_, ?_, ?_, ?_⟩ <;> decide

/-- C4 -- Round-trip: saving a checkpoint at epoch `E` and then recovering
with the same policy, rank and size succeeds, yields
`starting_epoch = E + 1`, and restores model and optimizer state identical to
what was saved. -/
theorem save_recovery_roundtrip (st : TrainerState) (store : Store)
    (cfg : CkptPolicy) (E : Nat) :
    (save st store (some cfg) E).err = none ∧
      (recovery st (save st store (some cfg) E).store (some cfg)).err = none ∧
      (recovery st (save st store (some cfg) E).store (some cfg)).state.startingEpoch
        = E + 1 ∧
      (recovery st (save st store (some cfg) E).store (some cfg)).state.modelState
        = st.modelState ∧
      (recovery st (save st store (some cfg) E).store (some cfg)).state.optimizerState
        = st.optimizerState := by
  cases hlr : st.lrScheduler <;>
    simp [save, recovery, recoveryTry, hlr]

/-! ### Eval-metric saturation claim -/

/-- C6 -- When exponentiating the mean eval loss overflows (any mean past the
`math.exp` overflow cutoff, e.g. a loss of 1e6), the `except OverflowError`
handler substitutes `+inf` for both the eval loss and the perplexity and the
computation returns normally instead of propagating an arithmetic error. -/
theorem perplexity_saturates (approx : ℚ → ℚ) (losses : List ℚ)
    (h1 : losses ≠ []) (h2 : expOverflowCutoff < listMean losses) :
    evalMetrics (floatExp approx) losses = .ok (.inf, .inf) := by
  have he : losses.isEmpty = false := by
    simpa [List.isEmpty_iff] using h1
  simp [evalMetrics, floatExp, he, h2]

/-- Witness for C6: a single gathered loss of 1e6 overflows `math.exp` and
saturates both metrics to `+inf`. -/
theorem perplexity_saturates_witness :
    (([(1000000 : ℚ)] : List ℚ) ≠ []) ∧
      expOverflowCutoff < listMean [(1000000 : ℚ)] ∧
      evalMetrics (floatExp id) [(1000000 : ℚ)] = .ok (.inf, .inf) :=
  ⟨by simp, by norm_num [listMean, expOverflowCutoff],
    perplexity_saturates id [(1000000 : ℚ)] (by simp)
      (by norm_num [listMean, expOverflowCutoff])⟩

end DefaultTrainer
